import Mathlib

/-!
Verification of the Sungrow SHx Modbus integration core
(`sungrow_modbus/model_registry.py`, `sungrow_modbus/sensor.py`).

Shallow embedding conventions:
* 16-bit wire words are `Nat` (the transport delivers values `< 2^16`);
  Python's unbounded ints are `Nat`/`Int`.
* Python floats used for `scale` are modelled as exact rationals `ℚ`
  (the claims under study are structural, not about rounding).
* Fallible code paths (list indexing that can raise `IndexError`) are
  modelled with `Option`: `none` is an uncaught exception.
* The Python dict `data` of a poll cycle is modelled as a lookup
  function `Nat → Option Value` for the integer (address) keys plus a
  separate field for the `device_type_code` entry.
-/

/-- Embeds the `Register` dataclass of `model_registry.py` (field for
field, with the same defaults; `scale` is the exact rational model of
the Python float). -/
structure Register where
  address : Nat
  name : String
  data_type : String
  count : Nat := 1
  scale : ℚ := 1
  unit : Option String := none
  device_class : Option String := none
  state_class : Option String := none
  register_type : String := "input"
deriving Repr, DecidableEq

/-- Embeds `ModelRegistry._create_base_registers`. -/
def create_base_registers : List Register :=
  [ { address := 4989, name := "Serial Number", data_type := "string", count := 10 },
    { address := 4999, name := "Device Type Code", data_type := "uint16" },
    { address := 5007, name := "Inverter Temperature", data_type := "int16",
      scale := mkRat 1 10, unit := some "°C", device_class := some "temperature" } ]

/-- Embeds `ModelRegistry._create_sh10rt`. -/
def create_sh10rt : List Register :=
  create_base_registers ++
  [ { address := 5010, name := "MPPT1 Voltage", data_type := "uint16",
      scale := mkRat 1 10, unit := some "V", device_class := some "voltage" },
    { address := 5011, name := "MPPT1 Current", data_type := "uint16",
      scale := mkRat 1 10, unit := some "A", device_class := some "current" },
    { address := 5012, name := "MPPT2 Voltage", data_type := "uint16",
      scale := mkRat 1 10, unit := some "V", device_class := some "voltage" },
    { address := 5013, name := "MPPT2 Current", data_type := "uint16",
      scale := mkRat 1 10, unit := some "A", device_class := some "current" } ]

/-- Embeds `ModelRegistry._create_sh25t` (note: the `Total DC Power`
register is declared `uint32` with the dataclass default `count=1`,
exactly as in the source). -/
def create_sh25t : List Register :=
  create_base_registers ++
  [ { address := 5010, name := "MPPT1 Voltage", data_type := "uint16",
      scale := mkRat 1 10, unit := some "V", device_class := some "voltage" },
    { address := 5011, name := "MPPT1 Current", data_type := "uint16",
      scale := mkRat 1 10, unit := some "A", device_class := some "current" },
    { address := 5012, name := "MPPT2 Voltage", data_type := "uint16",
      scale := mkRat 1 10, unit := some "V", device_class := some "voltage" },
    { address := 5013, name := "MPPT2 Current", data_type := "uint16",
      scale := mkRat 1 10, unit := some "A", device_class := some "current" },
    { address := 5014, name := "MPPT3 Voltage", data_type := "uint16",
      scale := mkRat 1 10, unit := some "V", device_class := some "voltage" },
    { address := 5015, name := "MPPT3 Current", data_type := "uint16",
      scale := mkRat 1 10, unit := some "A", device_class := some "current" },
    { address := 5016, name := "Total DC Power", data_type := "uint32",
      scale := 1, unit := some "W", device_class := some "power" } ]

/-- Embeds `ModelRegistry.get_model`: the `models` dict maps
`0x0E03 ↦ _create_sh10rt` and `0x0E26 ↦ _create_sh25t`; unknown codes
give `None`. -/
def get_model (model_code : Nat) : Option (List Register) :=
  if model_code = 0x0E03 then some create_sh10rt
  else if model_code = 0x0E26 then some create_sh25t
  else none

/-- A decoded register value as stored in the coordinator's `data`
dict: a Python int, a Python str, or Python `None` (the fallthrough
branch for an unrecognized `data_type`). -/
inductive Value where
  | num (n : Int)
  | str (s : String)
  | null
deriving Repr, DecidableEq

/-- Pointwise update of the address-keyed part of the `data` dict:
`data[a] = v`. -/
def setKey (data : Nat → Option Value) (a : Nat) (v : Value) : Nat → Option Value :=
  fun x => if x = a then some v else data x

/-- The empty `data` dict (no address keys present). -/
def emptyValues : Nat → Option Value := fun _ => none

/-- Python's `str.isspace()` set — the characters `str.strip()`
removes: \t \n \v \f \r (0x09–0x0D), 0x1C–0x1F, space, \x85 (NEL),
\xa0 (NBSP), and the Unicode space characters U+1680, U+2000–200A,
U+2028, U+2029, U+202F, U+205F, U+3000. -/
def isPySpace (c : Char) : Bool :=
  [0x09, 0x0A, 0x0B, 0x0C, 0x0D, 0x1C, 0x1D, 0x1E, 0x1F, 0x20, 0x85, 0xA0, 0x1680,
   0x2000, 0x2001, 0x2002, 0x2003, 0x2004, 0x2005, 0x2006, 0x2007, 0x2008, 0x2009,
   0x200A, 0x2028, 0x2029, 0x202F, 0x205F, 0x3000].contains c.toNat

/-- Python's `str.strip()` on a character list: drop the whitespace
characters from both ends. -/
def pyStrip (cs : List Char) : List Char :=
  ((cs.dropWhile isPySpace).reverse.dropWhile isPySpace).reverse

/-- The string-decoding loop of `_read_register_group`: for `n` words
starting at `offset`, emit `chr((word >> 8) & 0xFF)` then
`chr(word & 0xFF)`; an out-of-range index is an `IndexError` (`none`). -/
def stringChars (words : List Nat) (offset : Nat) : Nat → Option (List Char)
  | 0 => some []
  | n + 1 =>
    match words.get? offset with
    | none => none
    | some w =>
      match stringChars words (offset + 1) n with
      | none => none
      | some rest =>
        some (Char.ofNat ((w >>> 8) &&& 0xFF) :: Char.ofNat (w &&& 0xFF) :: rest)

/-- Decoding of one register at a word offset, following the
`data_type` dispatch of `_read_register_group` line for line.  Returns
the decoded value and the advanced offset, or `none` for an
`IndexError` on the word buffer. -/
def decodeValue (r : Register) (words : List Nat) (offset : Nat) : Option (Value × Nat) :=
  if r.data_type = "string" then
    match stringChars words offset r.count with
    | none => none
    | some cs =>
      some (.str (String.mk (pyStrip (cs.filter (fun c => c ≠ Char.ofNat 0)))),
            offset + r.count)
  else if r.data_type = "uint16" then
    match words.get? offset with
    | none => none
    | some w => some (.num (Int.ofNat w), offset + 1)
  else if r.data_type = "int16" then
    match words.get? offset with
    | none => none
    | some w =>
      some (.num (if (w : Int) > 0x7FFF then (w : Int) - 0x10000 else (w : Int)),
            offset + 1)
  else if r.data_type = "uint32" then
    match words.get? offset, words.get? (offset + 1) with
    | some hi, some lo => some (.num (Int.ofNat ((hi <<< 16) ||| lo)), offset + 2)
    | _, _ => none
  else if r.data_type = "int32" then
    match words.get? offset, words.get? (offset + 1) with
    | some hi, some lo =>
      let v : Int := Int.ofNat ((hi <<< 16) ||| lo)
      some (.num (if v > 0x7FFFFFFF then v - 0x100000000 else v), offset + 2)
    | _, _ => none
  else
    some (.null, offset + r.count)

/-- The per-register decode loop of `_read_register_group`, threading
the running offset and writing `data[reg.address] = value` for each
member in order. -/
def decodeGroup (words : List Nat) :
    List Register → Nat → (Nat → Option Value) → Option (Nat → Option Value)
  | [], _, data => some data
  | r :: rs, offset, data =>
    match decodeValue r words offset with
    | none => none
    | some (v, offset') => decodeGroup words rs offset' (setKey data r.address v)

/-- The relation by which `_async_update_data` sorts the register
list: `registers.sort(key=lambda r: r.address)`. -/
def addrLE (a b : Register) : Prop := a.address ≤ b.address

instance : DecidableRel addrLE := fun a b => Nat.decLe a.address b.address

instance : IsTotal Register addrLE := ⟨fun a b => Nat.le_total a.address b.address⟩

instance : IsTrans Register addrLE := ⟨fun _ _ _ => Nat.le_trans⟩

/-- The in-place `registers.sort(key=lambda r: r.address)` of
`_async_update_data`, modelled by a stable sort on the address key. -/
def sortRegisters (l : List Register) : List Register := l.insertionSort addrLE

/-- The grouping loop of `_async_update_data`: walk the sorted list,
accumulating `current_group` (kept in reverse, so the head is the
`current_group[-1]` the source compares against) and flushing it into
the accumulator whenever the next register is not contiguous
(`reg.address != last_reg.address + last_reg.count`). -/
def groupLoop : List Register → List Register → List (List Register) → List (List Register)
  | [], currentRev, acc =>
    if currentRev = [] then acc else acc ++ [currentRev.reverse]
  | r :: rs, currentRev, acc =>
    match currentRev with
    | [] => groupLoop rs [r] acc
    | last :: _ =>
      if r.address = last.address + last.count then
        groupLoop rs (r :: currentRev) acc
      else
        groupLoop rs [r] (acc ++ [currentRev.reverse])

/-- The register-grouping pass of `_async_update_data` (sort by
address, then partition into contiguous groups). -/
def plan (l : List Register) : List (List Register) := groupLoop (sortRegisters l) [] []

/-- Number of maximal contiguous runs of an (address-sorted) register
list, counting from a given previous register. -/
def runsFrom (prev : Register) : List Register → Nat
  | [] => 1
  | r :: rs => if r.address = prev.address + prev.count then runsFrom r rs else 1 + runsFrom r rs

/-- Number of maximal contiguous runs
(`next.address = prev.address + prev.count`) of an address-sorted
register list. -/
def runsCount : List Register → Nat
  | [] => 0
  | r :: rs => runsFrom r rs

/-- The wire transport consumed by the coordinator (`pymodbus` client):
each operation takes a start address, a word count and a slave id, and
returns the word buffer or `none` for an error response
(`result.isError()`). -/
structure Transport where
  read_input_registers : Nat → Nat → Nat → Option (List Nat)
  read_holding_registers : Nat → Nat → Nat → Option (List Nat)

/-- One wire read request issued by `_read_register_group`, recorded
for the effect log: the register space used, start address, word count
and slave id. -/
structure ReadRequest where
  space : String
  start : Nat
  count : Nat
  slave : Nat
deriving Repr, DecidableEq

/-- The single wire read issued for one contiguous group: start at the
first member's address, count the sum of the members' counts, in the
first member's register space (`registers[0].register_type`). -/
def groupRead (t : Transport) (slave : Nat) (registers : List Register) : Option (List Nat) :=
  match registers with
  | [] => none
  | r0 :: _ =>
    if r0.register_type = "input" then
      t.read_input_registers r0.address ((registers.map Register.count).sum) slave
    else
      t.read_holding_registers r0.address ((registers.map Register.count).sum) slave

/-- Embeds `_read_register_group`: issue the one block read; on a
transport error log and return with `data` unchanged; otherwise decode
the members into `data`.  Outer `none` is an uncaught exception
(`registers[0]` on an empty group, or an `IndexError` while
decoding). -/
def read_register_group (t : Transport) (slave : Nat) (registers : List Register)
    (data : Nat → Option Value) : Option ((Nat → Option Value) × ReadRequest) :=
  match registers with
  | [] => none
  | r0 :: _ =>
    let req : ReadRequest :=
      { space := if r0.register_type = "input" then "input" else "holding",
        start := r0.address, count := (registers.map Register.count).sum, slave := slave }
    match groupRead t slave registers with
    | none => some (data, req)
    | some words =>
      match decodeGroup words registers 0 data with
      | none => none
      | some data' => some (data', req)

/-- The group-read phase of `_async_update_data` as the source
actually behaves: `_read_register_group` is a plain synchronous `def`
returning `None`, yet both call sites `await` it.  The first flushed
group therefore executes its read and decode, and then the `await` on
the `None` result raises `TypeError`, aborting the cycle — no later
group is ever reached.  `none` is the raised exception (the
`TypeError`, or an `IndexError` escaping the synchronous body); only
an empty plan, which never flushes a group, completes. -/
def awaitReadGroups (t : Transport) (slave : Nat) :
    List (List Register) → (Nat → Option Value) →
    Option ((Nat → Option Value) × List ReadRequest)
  | [], data => some (data, [])
  | g :: _, data =>
    match read_register_group t slave g data with
    | none => none
    | some _ => none

/-- The result dict of one `_async_update_data` call: the
`device_type_code` entry plus the address-keyed decoded values. -/
structure PollData where
  device_type_code : Option Nat
  values : Nat → Option Value

/-- The empty dict `{}` returned on identity or model failure. -/
def emptyPollData : PollData := { device_type_code := none, values := emptyValues }

/-- Embeds `_async_update_data`: read the device type code from
holding register 4999, look the model up, then run the group-read
loop.  An identity-read error or an unknown model code returns the
empty dict `{}` (with no block read issued, empty request log).
On the success path the loop awaits the synchronous
`_read_register_group`, so the first flushed group runs its read and
decode and then the `await` raises `TypeError`; outer `none` is that
(or any other) uncaught exception. -/
def async_update_data (t : Transport) (slave : Nat) :
    Option (PollData × List ReadRequest) :=
  match t.read_holding_registers 4999 1 slave with
  | none => some (emptyPollData, [])
  | some deviceWords =>
    match deviceWords.get? 0 with
    | none => none
    | some model_code =>
      match get_model model_code with
      | none => some (emptyPollData, [])
      | some registers =>
        match awaitReadGroups t slave (plan registers) emptyValues with
        | none => none
        | some (vals, log) =>
          some ({ device_type_code := some model_code, values := vals }, log)

/-- A value returned by the `state` property of
`SungrowModbusSensor`: Python `None`, a number (int, or float after
scaling — modelled as `ℚ`), a string, or the `TypeError` that
`value * scale` raises on a string with a non-1.0 scale. -/
inductive StateValue where
  | null
  | num (q : ℚ)
  | str (s : String)
  | typeError
deriving Repr, DecidableEq

/-- Embeds `SungrowModbusSensor.state`: fetch
`coordinator.data.get(address)`; when the value exists and
`scale != 1.0`, return `value * scale`, else return the value
unchanged. -/
def sensorState (data : Nat → Option Value) (r : Register) : StateValue :=
  match data r.address with
  | none => .null
  | some .null => .null
  | some (.num n) => if r.scale ≠ 1 then .num ((n : ℚ) * r.scale) else .num (n : ℚ)
  | some (.str s) => if r.scale ≠ 1 then .typeError else .str s

/-- Spec reference rule for Int16: `raw − 0x10000` when
`raw > 0x7FFF`, else `raw`. -/
def specInt16 (w : Nat) : Int := if (w : Int) > 0x7FFF then (w : Int) - 0x10000 else (w : Int)

/-- Spec reference rule for UInt32: `(word[offset] << 16) | word[offset+1]`,
high word first. -/
def specUInt32 (hi lo : Nat) : Int := Int.ofNat ((hi <<< 16) ||| lo)

/-- Spec reference rule for Int32: compose as UInt32, then subtract
`0x100000000` when the result exceeds `0x7FFFFFFF`. -/
def specInt32 (hi lo : Nat) : Int :=
  if specUInt32 hi lo > 0x7FFFFFFF then specUInt32 hi lo - 0x100000000 else specUInt32 hi lo

/-- Spec reference rule for string bytes: each word contributes its
high byte `word >> 8` then its low byte `word & 0xFF`, in word
order. -/
def specStringBytes (ws : List Nat) : List Char :=
  ws.flatMap (fun w => [Char.ofNat (w >>> 8), Char.ofNat (w &&& 0xFF)])

/-- Concrete input: a 16-bit register at address 100 in the input
space (all fields default). -/
def mixedInput : Register := { address := 100, name := "mixed a", data_type := "uint16" }

/-- Concrete input: a 16-bit register at the adjacent address 101 but
in the holding space. -/
def mixedHolding : Register :=
  { address := 101, name := "mixed b", data_type := "uint16", register_type := "holding" }

/-- Concrete input: two registers claiming the same address 100. -/
def dupFirst : Register := { address := 100, name := "dup a", data_type := "uint16" }

/-- Concrete input: second register at the duplicated address 100. -/
def dupSecond : Register := { address := 100, name := "dup b", data_type := "uint16" }

/-- Concrete input: UInt16 register at address 100 (spec §8 scenario). -/
def w100 : Register := { address := 100, name := "w100", data_type := "uint16" }

/-- Concrete input: UInt32 register at address 101 occupying two words
(spec §8 scenario). -/
def w101 : Register := { address := 101, name := "w101", data_type := "uint32", count := 2 }

/-- Concrete input: UInt16 register at the distant address 200
(spec §8 scenario). -/
def w200 : Register := { address := 200, name := "w200", data_type := "uint16" }

/-- The `Inverter Temperature` register of `_create_base_registers`
(int16, scale 0.1). -/
def invTempReg : Register :=
  { address := 5007, name := "Inverter Temperature", data_type := "int16",
    scale := mkRat 1 10, unit := some "°C", device_class := some "temperature" }

/-- Concrete input: an int16 register for exercising the numeric
decode rules. -/
def i16Reg : Register := { address := 0, name := "i16", data_type := "int16" }

/-- Concrete input: a two-word string register for exercising the
string decode rule. -/
def strExample : Register :=
  { address := 0, name := "str example", data_type := "string", count := 2 }

/-- Concrete input: one single-register group at each of the addresses
100, 200 and 300. -/
def cwReg (a : Nat) : Register := { address := a, name := "cw", data_type := "uint16" }

/-- Concrete input: three single-register groups. -/
def cwGroups : List (List Register) := [[cwReg 100], [cwReg 200], [cwReg 300]]

/-- Concrete transport: the block read starting at address 200 fails,
the other input-space reads return one word `7`; holding reads fail. -/
def cwTransport : Transport :=
  { read_input_registers := fun start _ _ => if start = 200 then none else some [7],
    read_holding_registers := fun _ _ _ => none }

/-- Concrete transport whose every read fails. -/
def failTransport : Transport :=
  { read_input_registers := fun _ _ _ => none,
    read_holding_registers := fun _ _ _ => none }

/-- Concrete transport whose identity read succeeds with the unknown
model code `0xFFFF`. -/
def unknownModelTransport : Transport :=
  { read_input_registers := fun _ _ _ => some [0],
    read_holding_registers := fun _ _ _ => some [0xFFFF] }

/-- Concrete transport on which every read succeeds: the holding
(identity) read reports the SH10RT code `0x0E03` and every input read
returns the requested number of zero words. -/
def okTransport : Transport :=
  { read_input_registers := fun _ count _ => some (List.replicate count 0),
    read_holding_registers := fun _ count _ => some (List.replicate count 0x0E03) }

theorem groupLoop_flatten (l : List Register) :
    ∀ (cur : List Register) (acc : List (List Register)),
      (groupLoop l cur acc).flatten = acc.flatten ++ cur.reverse ++ l := by
  induction l with
  | nil =>
    intro cur acc
    by_cases h : cur = []
    · simp [groupLoop, h]
    · simp [groupLoop, h]
  | cons r rs ih =>
    intro cur acc
    match cur with
    | [] => simp [groupLoop, ih]
    | last :: rest =>
      by_cases h : r.address = last.address + last.count
      · rw [groupLoop]
        simp only [if_pos h]
        rw [ih]
        simp
      · rw [groupLoop]
        simp only [if_neg h]
        rw [ih]
        simp

theorem groupLoop_length (l : List Register) :
    ∀ (last : Register) (rest : List Register) (acc : List (List Register)),
      (groupLoop l (last :: rest) acc).length = acc.length + runsFrom last l := by
  induction l with
  | nil =>
    intro last rest acc
    simp [groupLoop, runsFrom]
  | cons r rs ih =>
    intro last rest acc
    by_cases h : r.address = last.address + last.count
    · rw [groupLoop]
      simp only [if_pos h]
      rw [ih]
      simp [runsFrom, h]
    · rw [groupLoop]
      simp only [if_neg h]
      rw [ih]
      simp [runsFrom, h]
      omega

theorem groupLoop_nonempty (l : List Register) :
    ∀ (cur : List Register) (acc : List (List Register)),
      (∀ g ∈ acc, g ≠ []) → ∀ g ∈ groupLoop l cur acc, g ≠ [] := by
  induction l with
  | nil =>
    intro cur acc hacc g hg
    by_cases h : cur = []
    · rw [groupLoop, if_pos h] at hg
      exact hacc g hg
    · rw [groupLoop, if_neg h] at hg
      rcases List.mem_append.1 hg with h1 | h2
      · exact hacc g h1
      · simp only [List.mem_singleton] at h2
        subst h2
        simpa using h
  | cons r rs ih =>
    intro cur acc hacc g hg
    match cur with
    | [] =>
      rw [groupLoop] at hg
      exact ih [r] acc hacc g hg
    | last :: rest =>
      by_cases h : r.address = last.address + last.count
      · rw [groupLoop, if_pos h] at hg
        exact ih _ acc hacc g hg
      · rw [groupLoop, if_neg h] at hg
        refine ih [r] _ ?_ g hg
        intro g' hg'
        rcases List.mem_append.1 hg' with h1 | h2
        · exact hacc g' h1
        · simp only [List.mem_singleton] at h2
          subst h2
          simp

theorem plan_flatten (l : List Register) : (plan l).flatten = sortRegisters l := by
  rw [plan, groupLoop_flatten]
  simp

theorem sortRegisters_perm (l : List Register) : (sortRegisters l).Perm l :=
  List.perm_insertionSort addrLE l

theorem plan_length_runs (l : List Register) :
    (plan l).length = runsCount (sortRegisters l) := by
  rw [plan]
  match h : sortRegisters l with
  | [] => simp [groupLoop, runsCount]
  | x :: xs =>
    rw [groupLoop, groupLoop_length]
    simp [runsCount]

theorem mem_of_mem_plan {l : List Register} {g : List Register} {r : Register}
    (hg : g ∈ plan l) (hr : r ∈ g) : r ∈ l := by
  have : r ∈ (plan l).flatten := List.mem_flatten.2 ⟨g, hg, hr⟩
  rw [plan_flatten] at this
  exact (sortRegisters_perm l).mem_iff.1 this

theorem plan_blocks_sorted {l : List Register} {g : List Register}
    (hg : g ∈ plan l) : g.Pairwise addrLE := by
  have hs : List.Pairwise addrLE (plan l).flatten := by
    rw [plan_flatten]
    exact List.sorted_insertionSort addrLE l
  exact ((List.pairwise_flatten.1 hs).1) g hg

theorem plan_sum (l : List Register) :
    (((plan l).map (fun g => (g.map Register.count).sum)).sum : Nat) =
      (l.map Register.count).sum := by
  have h1 : ((plan l).map (fun g => (g.map Register.count).sum)).sum
      = ((plan l).map (List.map Register.count)).flatten.sum := by
    rw [List.sum_flatten, List.map_map]
    rfl
  rw [h1, ← List.map_flatten, plan_flatten]
  exact ((sortRegisters_perm l).map Register.count).sum_eq

theorem plan_singleton (r : Register) : plan [r] = [[r]] := by
  have hs : sortRegisters [r] = [r] :=
    List.perm_singleton.1 (sortRegisters_perm [r])
  rw [plan, hs]
  rfl

theorem read_register_group_fail {t : Transport} {slave : Nat} {g : List Register}
    {data d : Nat → Option Value} {req : ReadRequest}
    (h : read_register_group t slave g data = some (d, req))
    (hfail : groupRead t slave g = none) : d = data := by
  match g with
  | [] => exact Option.noConfusion (by simpa only [read_register_group] using h)
  | r0 :: rest =>
    simp only [read_register_group, hfail] at h
    exact (Prod.mk.injEq .. ▸ Option.some.injEq .. ▸ h).1.symm

theorem read_register_group_ok {t : Transport} {slave : Nat} {g : List Register}
    {data d : Nat → Option Value} {req : ReadRequest} {words : List Nat}
    (h : read_register_group t slave g data = some (d, req))
    (hok : groupRead t slave g = some words) :
    decodeGroup words g 0 data = some d := by
  match g with
  | [] => exact Option.noConfusion (by simpa only [read_register_group] using h)
  | r0 :: rest =>
    simp only [read_register_group, hok] at h
    match h2 : decodeGroup words (r0 :: rest) 0 data with
    | none => simp only [h2] at h; exact Option.noConfusion h
    | some data' =>
      simp only [h2, Option.some.injEq, Prod.mk.injEq] at h
      exact congrArg some h.1

/-- Claim C1 (counterexample) — the grouping pass of
`_async_update_data` sorts by address only and checks only address
adjacency, so the input-space register at 100 and the holding-space
register at 101 are combined into one block, contradicting the claim
that registers of differing register space are never combined. -/
theorem c1_counterexample :
    plan [mixedInput, mixedHolding] = [[mixedInput, mixedHolding]]
    ∧ mixedInput.register_type = "input"
    ∧ mixedHolding.register_type = "holding" := by
  refine ⟨by decide, rfl, rfl⟩

/-- Claim C1 (amended) — the planner groups by address adjacency
alone; whenever all input registers share one register space (as they
do in every register list the `ModelRegistry` returns, which is all
`"input"`), every emitted block contains only registers of that one
space. -/
theorem c1_single_space :
    (∀ (l : List Register) (rt : String), (∀ r ∈ l, r.register_type = rt) →
      ∀ g ∈ plan l, ∀ r ∈ g, r.register_type = rt)
    ∧ (∀ code regs, get_model code = some regs → ∀ r ∈ regs, r.register_type = "input") := by
  constructor
  · intro l rt hl g hg r hr
    exact hl r (mem_of_mem_plan hg hr)
  · intro code regs hcode r hr
    by_cases h1 : code = 0x0E03
    · simp only [get_model, if_pos h1, Option.some.injEq] at hcode
      subst hcode
      revert hr
      revert r
      decide
    · by_cases h2 : code = 0x0E26
      · simp only [get_model, if_neg h1, if_pos h2, Option.some.injEq] at hcode
        subst hcode
        revert hr
        revert r
        decide
      · simp only [get_model, if_neg h1, if_neg h2] at hcode
        exact Option.noConfusion hcode

/-- Claim C1 (witness for the amended theorem) — instantiated at the
single-register input list `[mixedInput]`, whose one planned block
carries the input space. -/
theorem c1_witness : mixedInput.register_type = "input" :=
  c1_single_space.1 [mixedInput] "input" (by decide) [mixedInput] (by decide)
    mixedInput (by decide)

/-- Claim C2 — the SH25T register list returned by
`ModelRegistry.get_model 0x0E26` contains the `Total DC Power`
register with `data_type = "uint32"` but `count = 1` (the dataclass
default), violating the width invariant `wordCount == 2` for UInt32
registers. -/
theorem c2_width_violation :
    get_model 0x0E26 = some create_sh25t
    ∧ ∃ r ∈ create_sh25t,
        r.address = 5016 ∧ r.name = "Total DC Power"
        ∧ r.data_type = "uint32" ∧ r.count = 1 := by
  refine ⟨by decide, ?_⟩
  decide

/-- Claim C3 — the third block planned for the SH25T model (addresses
5010–5016) has `totalWordCount = 7`, yet decoding it against a 7-word
buffer (exactly the claimed precondition) raises `IndexError`: the
`uint32` member at 5016 contributes `count = 1` to the total but the
decoder reads two words for it, accessing index 7 of a 7-word
buffer. -/
theorem c3_decode_oob :
    create_sh25t.drop 3 ∈ plan create_sh25t
    ∧ ((create_sh25t.drop 3).map Register.count).sum = 7
    ∧ (List.replicate 7 0).length = ((create_sh25t.drop 3).map Register.count).sum
    ∧ decodeGroup (List.replicate 7 0) (create_sh25t.drop 3) 0 emptyValues = none := by
  refine ⟨by decide, by decide, by decide, ?_⟩
  rfl

/-- Claim C4 — the grouping pass of `_async_update_data` partitions
the address-sorted input into exactly the maximal contiguous runs:
the number of blocks equals the number of runs, the blocks
concatenate (in order) to the sorted input (so each block's member
order is ascending by address and no register is dropped or
duplicated), the blocks' total word counts sum to the input word
counts (no padding), empty input gives an empty plan and a single
register gives one single-register block. -/
theorem c4_plan_partition :
    (∀ l : List Register, (plan l).length = runsCount (sortRegisters l))
    ∧ (∀ l : List Register, (plan l).flatten = sortRegisters l)
    ∧ (∀ l : List Register,
        ((plan l).map (fun g => (g.map Register.count).sum)).sum = (l.map Register.count).sum)
    ∧ (∀ l : List Register, ∀ g ∈ plan l, g.Pairwise addrLE)
    ∧ plan [] = []
    ∧ (∀ r : Register, plan [r] = [[r]]) := by
  refine ⟨plan_length_runs, plan_flatten, plan_sum, ?_, rfl, plan_singleton⟩
  intro l g hg
  exact plan_blocks_sorted hg

/-- Claim C4 (witness) — on the spec §8 scenario
`[{100, UInt16}, {101, UInt32}, {200, UInt16}]` the plan has exactly
two blocks and the first block `[100..102]` is in ascending address
order. -/
theorem c4_witness :
    (plan [w100, w101, w200]).length = 2
    ∧ [w100, w101].Pairwise addrLE := by
  constructor
  · rw [c4_plan_partition.1]
    decide
  · exact c4_plan_partition.2.2.2.1 [w100, w101, w200] [w100, w101] (by decide)

/-- Claim C5 (counterexample) — decoding the `Inverter Temperature`
register (int16, scale 0.1) from the raw word 250 places the
UNSCALED value 250 into the output mapping at address 5007; the
claimed scaled value would be 250 × 0.1 = 25, so scaling is not
applied before placement into the mapping. -/
theorem c5_counterexample :
    invTempReg ∈ create_base_registers
    ∧ invTempReg.scale = mkRat 1 10
    ∧ (decodeGroup [250] [invTempReg] 0 emptyValues).map (fun d => d invTempReg.address) =
        some (some (Value.num 250))
    ∧ (250 : ℚ) * invTempReg.scale = 25
    ∧ Value.num 250 ≠ Value.num 25 := by
  refine ⟨by decide, rfl, rfl, ?_, by decide⟩
  show (250 : ℚ) * mkRat 1 10 = 25
  rw [Rat.mkRat_eq_div]
  norm_num

/-- Claim C5 (amended) — scaling happens when the sensor's `state`
property reads the mapping, not before insertion: for a numeric value
`n` stored at the register's address the published state is
`n * scale` (with `scale = 1.0` a no-op, since the multiplication is
skipped); a string value passes through unmultiplied whenever its
register's scale is 1.0, and every string register of every model the
registry returns has scale 1.0. -/
theorem c5_scaling_at_state :
    (∀ (data : Nat → Option Value) (r : Register) (n : Int),
        data r.address = some (.num n) → sensorState data r = .num ((n : ℚ) * r.scale))
    ∧ (∀ (data : Nat → Option Value) (r : Register) (s : String),
        data r.address = some (.str s) → r.scale = 1 → sensorState data r = .str s)
    ∧ (∀ code regs, get_model code = some regs →
        ∀ r ∈ regs, r.data_type = "string" → r.scale = 1) := by
  refine ⟨?_, ?_, ?_⟩
  · intro data r n h
    rw [sensorState, h]
    by_cases hs : r.scale = 1
    · simp [hs]
    · simp [hs]
  · intro data r s h hs
    rw [sensorState, h]
    simp [hs]
  · intro code regs hcode r hr
    by_cases h1 : code = 0x0E03
    · simp only [get_model, if_pos h1, Option.some.injEq] at hcode
      subst hcode
      revert hr
      revert r
      decide
    · by_cases h2 : code = 0x0E26
      · simp only [get_model, if_neg h1, if_pos h2, Option.some.injEq] at hcode
        subst hcode
        revert hr
        revert r
        decide
      · simp only [get_model, if_neg h1, if_neg h2] at hcode
        exact Option.noConfusion hcode

/-- Claim C5 (witness for the amended theorem) — with the raw value
250 stored at address 5007, the `Inverter Temperature` sensor state
is 250 × 0.1 = 25. -/
theorem c5_witness :
    sensorState (setKey emptyValues invTempReg.address (Value.num 250)) invTempReg =
      StateValue.num 25 := by
  rw [c5_scaling_at_state.1 (setKey emptyValues invTempReg.address (Value.num 250))
    invTempReg 250 (by rw [setKey]; simp)]
  show StateValue.num ((250 : ℚ) * mkRat 1 10) = StateValue.num 25
  rw [Rat.mkRat_eq_div]
  norm_num

/-- Claim C6 — the numeric decode rules of `_read_register_group`
agree with the spec's reference definitions: an int16 word is
two's-complement-reinterpreted (subtract `0x10000` above `0x7FFF`),
a uint32 is composed high word first, an int32 additionally subtracts
`0x100000000` above `0x7FFFFFFF`; offsets advance by 1 for 16-bit and
2 for 32-bit types; and the reference definitions hit the spec's
test vectors (`0x7FFF ↦ 32767`, `0x8000 ↦ -32768`,
`[1, 2] ↦ 65538`, `[0xFFFF, 0xFFFF] ↦ -1`). -/
theorem c6_numeric_rules :
    (∀ (r : Register) (words : List Nat) (offset w : Nat),
        r.data_type = "uint16" → words.get? offset = some w →
        decodeValue r words offset = some (.num (Int.ofNat w), offset + 1))
    ∧ (∀ (r : Register) (words : List Nat) (offset w : Nat),
        r.data_type = "int16" → words.get? offset = some w →
        decodeValue r words offset = some (.num (specInt16 w), offset + 1))
    ∧ (∀ (r : Register) (words : List Nat) (offset hi lo : Nat),
        r.data_type = "uint32" → words.get? offset = some hi →
        words.get? (offset + 1) = some lo →
        decodeValue r words offset = some (.num (specUInt32 hi lo), offset + 2))
    ∧ (∀ (r : Register) (words : List Nat) (offset hi lo : Nat),
        r.data_type = "int32" → words.get? offset = some hi →
        words.get? (offset + 1) = some lo →
        decodeValue r words offset = some (.num (specInt32 hi lo), offset + 2))
    ∧ specInt16 0x7FFF = 32767 ∧ specInt16 0x8000 = -32768
    ∧ specUInt32 0x0001 0x0002 = 65538
    ∧ specInt32 0xFFFF 0xFFFF = -1 := by
  refine ⟨?_, ?_, ?_, ?_, by decide, by decide, by decide, by decide⟩
  · intro r words offset w hdt hw
    rw [List.get?_eq_getElem?] at hw
    simp [decodeValue, hdt, hw]
  · intro r words offset w hdt hw
    rw [List.get?_eq_getElem?] at hw
    simp [decodeValue, hdt, hw, specInt16]
  · intro r words offset hi lo hdt hhi hlo
    rw [List.get?_eq_getElem?] at hhi hlo
    simp [decodeValue, hdt, hhi, hlo, specUInt32]
  · intro r words offset hi lo hdt hhi hlo
    rw [List.get?_eq_getElem?] at hhi hlo
    simp [decodeValue, hdt, hhi, hlo, specInt32, specUInt32]

/-- Claim C6 (witness) — the int16 register decodes the boundary word
`0x8000` to −32768, advancing the offset by one. -/
theorem c6_witness : decodeValue i16Reg [0x8000] 0 = some (.num (-32768), 1) := by
  rw [c6_numeric_rules.2.1 i16Reg [0x8000] 0 0x8000 rfl rfl]
  decide

theorem and_255_of_lt {x : Nat} (h : x < 256) : x &&& 0xFF = x := by
  have h2 : x &&& 0xFF = x % 256 := by
    have h3 := Nat.and_pow_two_sub_one_eq_mod x 8
    norm_num at h3
    exact h3
  rw [h2, Nat.mod_eq_of_lt h]

theorem stringChars_spec (words : List Nat) (hw : ∀ w ∈ words, w < 65536) :
    ∀ (n offset : Nat), offset + n ≤ words.length →
      stringChars words offset n =
        some (specStringBytes ((words.drop offset).take n)) := by
  intro n
  induction n with
  | zero =>
    intro offset _
    simp [stringChars, specStringBytes]
  | succ n ih =>
    intro offset h
    have hlt : offset < words.length := by omega
    have hget : words.get? offset = some words[offset] := by
      rw [List.get?_eq_getElem?, List.getElem?_eq_getElem hlt]
    have hmem : words[offset] ∈ words := List.getElem_mem hlt
    have hw16 : words[offset] < 65536 := hw _ hmem
    have hw8 : words[offset] >>> 8 < 256 := by
      rw [Nat.shiftRight_eq_div_pow]
      have : (2 : Nat) ^ 8 = 256 := by norm_num
      rw [this]
      exact Nat.div_lt_of_lt_mul (by omega)
    rw [stringChars, hget, ih (offset + 1) (by omega)]
    rw [List.drop_eq_getElem_cons hlt, List.take_succ_cons]
    simp only [specStringBytes, List.flatMap_cons]
    rw [and_255_of_lt hw8]
    rfl

/-- Claim C7 — the string decode of `_read_register_group` matches the
spec rule: each of the register's `count` words is split into its high
byte (`word >> 8`) then its low byte (`word & 0xFF`), the characters
are concatenated in word order, NUL characters are removed and
surrounding whitespace is stripped, and the offset advances by
`count`; in particular `[0x4142, 0x0000]` with count 2 decodes to
`"AB"`. -/
theorem c7_string_decode :
    (∀ (r : Register) (words : List Nat) (offset : Nat),
        r.data_type = "string" →
        offset + r.count ≤ words.length →
        (∀ w ∈ words, w < 65536) →
        decodeValue r words offset =
          some (.str (String.mk (pyStrip
              ((specStringBytes ((words.drop offset).take r.count)).filter
                (fun c => c ≠ Char.ofNat 0)))),
            offset + r.count))
    ∧ decodeValue strExample [0x4142, 0x0000] 0 = some (.str "AB", 2) := by
  constructor
  · intro r words offset hdt hlen hw
    rw [decodeValue, if_pos hdt, stringChars_spec words hw r.count offset hlen]
  · rfl

/-- Claim C7 (witness) — the general rule instantiated at the
two-word buffer `[0x4142, 0x0000]`: the bytes are 'A', 'B' and two
NULs, which strip to `"AB"`. -/
theorem c7_witness :
    decodeValue strExample [0x4142, 0x0000] 0 =
      some (.str (String.mk (pyStrip
          ((specStringBytes (([0x4142, 0x0000].drop 0).take 2)).filter
            (fun c => c ≠ Char.ofNat 0)))), 2)
    ∧ String.mk (pyStrip
          ((specStringBytes (([0x4142, 0x0000].drop 0).take 2)).filter
            (fun c => c ≠ Char.ofNat 0))) = "AB" := by
  constructor
  · exact c7_string_decode.1 strExample [0x4142, 0x0000] 0 rfl (by decide) (by decide)
  · rfl

theorem awaitReadGroups_cons (t : Transport) (slave : Nat) (g : List Register)
    (gs : List (List Register)) (data : Nat → Option Value) :
    awaitReadGroups t slave (g :: gs) data = none := by
  simp only [awaitReadGroups]
  match read_register_group t slave g data with
  | none => rfl
  | some p => rfl

theorem plan_model_ne_nil :
    ∀ (code : Nat) (regs : List Register), get_model code = some regs → plan regs ≠ [] := by
  intro code regs h
  by_cases h1 : code = 0x0E03
  · simp only [get_model, if_pos h1, Option.some.injEq] at h
    subst h
    decide
  · by_cases h2 : code = 0x0E26
    · simp only [get_model, if_neg h1, if_pos h2, Option.some.injEq] at h
      subst h
      decide
    · simp only [get_model, if_neg h1, if_neg h2] at h
      exact Option.noConfusion h

/-- Claim C8 (counterexample) — the claim's own scenario: three
single-register blocks at 100, 200 and 300 where only the read at 200
would fail and the other two would succeed.  The group-read loop
nevertheless produces NO snapshot at all: the first flushed group
executes its read, and the `await` on the synchronous
`_read_register_group`'s `None` return raises `TypeError`, so the
remaining blocks are never read — the successful blocks' values never
appear anywhere. -/
theorem c8_counterexample :
    groupRead cwTransport 1 [cwReg 100] = some [7]
    ∧ groupRead cwTransport 1 [cwReg 200] = none
    ∧ groupRead cwTransport 1 [cwReg 300] = some [7]
    ∧ awaitReadGroups cwTransport 1 cwGroups emptyValues = none := by
  exact ⟨rfl, rfl, rfl, rfl⟩

/-- Claim C8 (amended) — the poll cycle aborts at the first flushed
group instead of isolating block failures: (i) the group-read loop on
any nonempty plan raises (`none`) — no snapshot, no further block
reads; (ii) an empty plan is the only completing case; (iii) whenever
the identity read resolves to a known model, the whole
`_async_update_data` raises, since every registry model has a
nonempty plan; (iv)–(v) the per-block recovery inside the synchronous
`_read_register_group` body does exist — a failed wire read returns
with `data` untouched, a successful one decodes the group into
`data` — but the `await TypeError` makes it unreachable across
blocks. -/
theorem c8_await_abort :
    (∀ (t : Transport) (slave : Nat) (g : List Register) (gs : List (List Register))
        (data : Nat → Option Value), awaitReadGroups t slave (g :: gs) data = none)
    ∧ (∀ (t : Transport) (slave : Nat) (data : Nat → Option Value),
        awaitReadGroups t slave [] data = some (data, []))
    ∧ (∀ (t : Transport) (slave code : Nat) (rest : List Nat) (regs : List Register),
        t.read_holding_registers 4999 1 slave = some (code :: rest) →
        get_model code = some regs →
        async_update_data t slave = none)
    ∧ (∀ (t : Transport) (slave : Nat) (g : List Register) (data d : Nat → Option Value)
        (req : ReadRequest), read_register_group t slave g data = some (d, req) →
        groupRead t slave g = none → d = data)
    ∧ (∀ (t : Transport) (slave : Nat) (g : List Register) (data d : Nat → Option Value)
        (req : ReadRequest) (words : List Nat),
        read_register_group t slave g data = some (d, req) →
        groupRead t slave g = some words → decodeGroup words g 0 data = some d) := by
  refine ⟨awaitReadGroups_cons, fun _ _ _ => rfl, ?_, ?_, ?_⟩
  · intro t slave code rest regs h1 h2
    obtain ⟨g0, gs0, hgg⟩ := List.exists_cons_of_ne_nil (plan_model_ne_nil code regs h2)
    simp [async_update_data, h1, h2, hgg, awaitReadGroups_cons]
  · intro t slave g data d req h hfail
    exact read_register_group_fail h hfail
  · intro t slave g data d req words h hok
    exact read_register_group_ok h hok

/-- Claim C8 (witness for the amended theorem) — on a transport where
every read succeeds and the identity resolves to the SH10RT model
(three planned blocks), the cycle still raises. -/
theorem c8_await_witness : async_update_data okTransport 1 = none :=
  c8_await_abort.2.2.1 okTransport 1 0x0E03 [] create_sh10rt rfl (by decide)

/-- Claim C9 — when the identity read at holding register 4999 fails,
or the read identity code is unknown to the registry (for example
`0xFFFF`), `_async_update_data` returns the empty dict `{}`
immediately: no block read is issued (empty request log), no register
value and no device type code is published. -/
theorem c9_identity_failure :
    (∀ (t : Transport) (slave : Nat),
        t.read_holding_registers 4999 1 slave = none →
        async_update_data t slave = some (emptyPollData, []))
    ∧ (∀ (t : Transport) (slave code : Nat) (rest : List Nat),
        t.read_holding_registers 4999 1 slave = some (code :: rest) →
        get_model code = none →
        async_update_data t slave = some (emptyPollData, []))
    ∧ get_model 0xFFFF = none
    ∧ emptyPollData.device_type_code = none
    ∧ (∀ a, emptyPollData.values a = none) := by
  refine ⟨?_, ?_, by decide, rfl, fun _ => rfl⟩
  · intro t slave h
    simp [async_update_data, h]
  · intro t slave code rest h1 h2
    simp [async_update_data, h1, h2]

/-- Claim C9 (witness) — a transport whose identity read fails, and
one that reports the unknown model code `0xFFFF`, both produce the
empty snapshot with no block reads. -/
theorem c9_witness :
    async_update_data failTransport 1 = some (emptyPollData, [])
    ∧ async_update_data unknownModelTransport 1 = some (emptyPollData, []) := by
  constructor
  · exact c9_identity_failure.1 failTransport 1 rfl
  · exact c9_identity_failure.2.1 unknownModelTransport 1 0xFFFF [] rfl (by decide)

/-- Claim C10 (counterexample) — given two registers that claim the
same address 100, the planner does not fail: it happily produces a
two-block read plan (the duplicate is not adjacent by the grouping
rule, so it starts a fresh block with an overlapping address
range). -/
theorem c10_counterexample :
    plan [dupFirst, dupSecond] = [[dupFirst], [dupSecond]]
    ∧ dupFirst.address = dupSecond.address
    ∧ plan [dupFirst, dupSecond] ≠ [] := by
  refine ⟨by decide, rfl, by decide⟩

/-- Claim C10 (amended) — the planner performs no duplicate/overlap
detection and never rejects an input: it always emits a plan whose
blocks contain every input register exactly once (duplicates
included, in separate overlapping blocks), and the malformed case
never arises for the built-in models, whose register lists have
pairwise distinct addresses. -/
theorem c10_no_rejection :
    (∀ l : List Register, (plan l).flatten.Perm l)
    ∧ (∀ code regs, get_model code = some regs → (regs.map Register.address).Nodup)
    ∧ plan [dupFirst, dupSecond] = [[dupFirst], [dupSecond]] := by
  refine ⟨?_, ?_, by decide⟩
  · intro l
    rw [plan_flatten]
    exact sortRegisters_perm l
  · intro code regs hcode
    by_cases h1 : code = 0x0E03
    · simp only [get_model, if_pos h1, Option.some.injEq] at hcode
      subst hcode
      decide
    · by_cases h2 : code = 0x0E26
      · simp only [get_model, if_neg h1, if_pos h2, Option.some.injEq] at hcode
        subst hcode
        decide
      · simp only [get_model, if_neg h1, if_neg h2] at hcode
        exact Option.noConfusion hcode

/-- Claim C10 (witness for the amended theorem) — the SH10RT model's
register list has pairwise distinct addresses. -/
theorem c10_witness : (create_sh10rt.map Register.address).Nodup :=
  c10_no_rejection.2.1 0x0E03 create_sh10rt (by decide)
